import Mathlib

/-
Shallow embedding of the replication service of the influxdb repository:
src/replications/service.go and the replication metrics file.  Pure data and
control flow are translated to Lean functions; the external collaborators
(SQL catalog, durable queue manager, bucket service, local points writer,
gzip codec) are modelled as explicit outcome parameters in environment
records, exactly mirroring which call sites can fail in the Go code and
what the service does on each branch.
-/

namespace Replications

/-- Error codes of the structured errors in kit/platform/errors used by the
service: not-found, invalid-argument, and everything else (plain Go errors
from the catalog or the queue manager). -/
inductive ErrCode where
  | notFound
  | invalid
  | internal
  deriving DecidableEq

/-- Structured error: a code plus a message, modelling both ierrors.Error
values and plain Go errors (code `internal`). -/
structure SErr where
  code : ErrCode
  msg : String
  deriving DecidableEq

/-- platform.ID: a nonzero 64-bit identifier, modelled as Nat. -/
abbrev ID := Nat

/-- Byte payloads (line protocol, gzip buffers) modelled as character lists. -/
abbrev Bytes := List Char

/-- errReplicationNotFound from service.go: ENotFound with this message. -/
def errReplicationNotFound : SErr := ⟨ErrCode.notFound, "replication not found"⟩

/-- errRemoteNotFound from service.go: EInvalid naming the missing remote id. -/
def errRemoteNotFound (i : ID) : SErr :=
  ⟨ErrCode.invalid, "remote " ++ toString i ++ " not found"⟩

/-- errLocalBucketNotFound from service.go: EInvalid naming the bucket id. -/
def errLocalBucketNotFound (i : ID) : SErr :=
  ⟨ErrCode.invalid, "local bucket " ++ toString i ++ " not found"⟩

/-- Value of a single hex digit, as accepted by Go strconv.ParseUint base 16. -/
def hexVal (c : Char) : Option Nat :=
  if '0' ≤ c ∧ c ≤ '9' then some (c.toNat - '0'.toNat)
  else if 'a' ≤ c ∧ c ≤ 'f' then some (c.toNat - 'a'.toNat + 10)
  else if 'A' ≤ c ∧ c ≤ 'F' then some (c.toNat - 'A'.toNat + 10)
  else none

/-- Big-endian hex accumulation over a character list. -/
def hexAcc : List Char → Nat → Option Nat
  | [], acc => some acc
  | c :: rest, acc =>
    match hexVal c with
    | none => none
    | some v => hexAcc rest (acc * 16 + v)

/-- platform.IDFromString (kit/platform): a valid id string is exactly 16 hex
characters and decodes to a nonzero value; on any other input Go returns a
nil pointer together with an error, modelled as `none`. -/
def idFromString (s : String) : Option ID :=
  if s.length = 16 then
    match hexAcc s.data 0 with
    | none => none
    | some n => if n = 0 then none else some n
  else none

/- ===== Metrics (src/unnamed/part_000, package metrics) ===== -/

/-- Model of a prometheus.CounterVec as constructed from CounterOpts:
the three name parts, the help text and the label names. -/
structure CounterVec where
  nspace : String
  subsystem : String
  name : String
  help : String
  labelNames : List String
  deriving DecidableEq

/-- Fully-qualified metric name, as prometheus.BuildFQName computes it:
the nonempty parts of namespace, subsystem and name joined by underscores. -/
def CounterVec.fqName (c : CounterVec) : String :=
  (if c.nspace = "" then "" else c.nspace ++ "_") ++
    (if c.subsystem = "" then "" else c.subsystem ++ "_") ++ c.name

/-- ReplicationsMetrics struct: the two counter vectors. -/
structure ReplicationsMetrics where
  pointsQueued : CounterVec
  bytesQueued : CounterVec
  deriving DecidableEq

/-- NewReplicationsMetrics, translated field by field from the source: the
namespace constant is "replications" and the subsystem constant is the
placeholder "what_is_this_for". -/
def newReplicationsMetrics : ReplicationsMetrics :=
  { pointsQueued :=
      { nspace := "replications"
        subsystem := "what_is_this_for"
        name := "points_queued"
        help := "The number of points enqueued to the replication stream"
        labelNames := ["replicationID"] }
    bytesQueued :=
      { nspace := "replications"
        subsystem := "what_is_this_for"
        name := "bytes_queued"
        help := "The number bytes enqueued to the replication stream"
        labelNames := ["replicationID"] } }

/-- PrometheusCollectors, translated from the source: the returned slice
contains only the PointsQueued counter. -/
def ReplicationsMetrics.prometheusCollectors (rm : ReplicationsMetrics) : List CounterVec :=
  [rm.pointsQueued]

/-- NewService calls metrics.NewReplicationsMetrics exactly once and returns
the resulting record alongside the service; this is the single construction
of the counters per service. -/
def newServiceMetrics : ReplicationsMetrics := newReplicationsMetrics

/- ===== WritePoints (service.go, hot path) ===== -/

/-- Point from the models package, reduced to the only view WritePoints takes
of it: its nanosecond-precision line-protocol rendering p.PrecisionString("ns"),
kept opaque as a byte string. -/
structure Point where
  lp : Bytes
  deriving DecidableEq

/-- Environment of one WritePoints call: outcomes of every external call the
function makes.  localWriteErr is the result of localWriter.WritePoints;
writeErrAt i the result of gzw.Write for the i-th point; closeErr the result
of the final gzw.Close; enqueueErr the result of EnqueueData per replication
id; compress the gzip codec applied to the accumulated uncompressed stream
when the writer is closed. -/
structure WpEnv where
  localWriteErr : Option SErr
  writeErrAt : Nat → Option SErr
  closeErr : Option SErr
  enqueueErr : ID → Option SErr
  compress : Bytes → Bytes

/-- Wrapping applied by the serialization task on a gzip write failure:
fmt.Errorf with this prefix around the cause. -/
def serializeWrapMsg (e : SErr) : SErr :=
  ⟨ErrCode.internal, "failed to serialize points for replication: " ++ e.msg⟩

/-- Serialization task of WritePoints: for each point, write its
nanosecond line protocol followed by a newline into the gzip writer; a
write failure closes the stream and returns the wrapped error; otherwise
the writer is closed and the compressed buffer is produced.  The
accumulator is the uncompressed stream written so far, and the counter is
the index of the next point (used to look up the write outcome). -/
def serializeLoop (env : WpEnv) : List Point → Nat → Bytes → Except SErr Bytes
  | [], _, acc =>
    match env.closeErr with
    | some e => Except.error e
    | none => Except.ok (env.compress acc)
  | p :: rest, i, acc =>
    match env.writeErrAt i with
    | some e => Except.error (serializeWrapMsg e)
    | none => serializeLoop env rest (i + 1) (acc ++ (p.lp ++ ['\n']))

/-- Uncompressed stream the serialization task produces: each point's line
protocol terminated by a newline, concatenated in point order. -/
def lpConcat : List Point → Bytes
  | [] => []
  | p :: rest => p.lp ++ ('\n' :: lpConcat rest)

/-- Log line emitted when EnqueueData fails for one replication
("Failed to enqueue points for replication" with the id and error fields). -/
def enqueueFailLogMsg (i : ID) (e : SErr) : String :=
  "Failed to enqueue points for replication: " ++ toString i ++ ": " ++ e.msg

/-- Fan-out stage of WritePoints: one EnqueueData(id, buf, n) invocation per
matched replication id, all sharing the same buffer.  A failed enqueue is
logged and skipped; a successful one appends the buffer as a new record to
that id's queue.  The Go code runs these in goroutines and waits on all of
them; the model processes them in id order (the claims proved below do not
depend on interleaving).  Returns the final queues, the list of EnqueueData
invocations, and the log lines. -/
def fanout (env : WpEnv) (buf : Bytes) (n : Nat) :
    List ID → (ID → List Bytes) → ((ID → List Bytes) × List (ID × Bytes × Nat) × List String)
  | [], qs => (qs, [], [])
  | i :: rest, qs =>
    match env.enqueueErr i with
    | some e =>
      let t := fanout env buf n rest qs
      (t.1, (i, buf, n) :: t.2.1, enqueueFailLogMsg i e :: t.2.2)
    | none =>
      let t := fanout env buf n rest (fun j => if j = i then qs j ++ [buf] else qs j)
      (t.1, (i, buf, n) :: t.2.1, t.2.2)

/-- Result of one WritePoints call: the returned error (none is a nil
return), the queue contents afterwards, every EnqueueData invocation made,
and the log lines emitted. -/
structure WpOut where
  res : Option SErr
  queues : ID → List Bytes
  enqueued : List (ID × Bytes × Nat)
  logs : List String

/-- Branch of WritePoints taken when at least one replication matched: run
the local write and the serialization, wait for both (errgroup.Wait returns
the error of a failing task; the model prefers the local writer's when both
fail), and only when both succeeded fan the buffer out to every id. -/
def wpMatched (env : WpEnv) (ids : List ID) (points : List Point)
    (qs : ID → List Bytes) : WpOut :=
  match env.localWriteErr with
  | some e => { res := some e, queues := qs, enqueued := [], logs := [] }
  | none =>
    match serializeLoop env points 0 [] with
    | Except.error e => { res := some e, queues := qs, enqueued := [], logs := [] }
    | Except.ok buf =>
      let t := fanout env buf points.length ids qs
      { res := none, queues := t.1, enqueued := t.2.1, logs := t.2.2 }

/-- WritePoints, translated from service.go: ids is the SELECT result of
replication ids matching (org_id, local_bucket_id); with no match the call
degenerates to the local write; otherwise the matched branch runs. -/
def writePoints (env : WpEnv) (ids : List ID) (points : List Point)
    (qs : ID → List Bytes) : WpOut :=
  match ids with
  | [] => { res := env.localWriteErr, queues := qs, enqueued := [], logs := [] }
  | i :: rest => wpMatched env (i :: rest) points qs

/- ===== CreateReplication (service.go) ===== -/

/-- Value bound to a column of the squirrel INSERT.  A Go value placed in
SetMap becomes a driver parameter, stored verbatim by SQLite; only a
sq.Expr value is spliced into the SQL text and evaluated by the engine.
CreateReplication passes the plain Go string "datetime(\x27now\x27)" for
created_at and updated_at, while UpdateReplication passes
sq.Expr("datetime(\x27now\x27)") for updated_at; the model keeps the two
shapes apart so that the difference is observable. -/
inductive SqlVal where
  | param (s : String)
  | exprNow
  deriving DecidableEq

/-- Text stored in a column when the row is written at clock reading `now`:
a parameter is stored verbatim, the now() expression stores the clock. -/
def SqlVal.storedText (now : String) : SqlVal → String
  | .param s => s
  | .exprNow => now

/-- CreateReplicationRequest fields used by the service. -/
structure CreateRequest where
  orgID : ID
  name : String
  description : String
  remoteID : ID
  localBucketID : ID
  remoteBucketID : ID
  maxQueueSizeBytes : Int
  dropNonRetryableData : Bool
  deriving DecidableEq

/-- Row the INSERT writes, with the timestamp columns kept as the SqlVal
shape the builder bound so that what SQLite stores can be computed. -/
structure InsertRow where
  id : ID
  orgID : ID
  name : String
  description : String
  remoteID : ID
  localBucketID : ID
  remoteBucketID : ID
  maxQueueSizeBytes : Int
  dropNonRetryableData : Bool
  createdAtVal : SqlVal
  updatedAtVal : SqlVal
  deriving DecidableEq

/-- Outcome of executing the INSERT: success, a foreign-key constraint
violation (sqlite3.ErrConstraintForeignKey, here only remote_id is a
foreign key), or any other database error. -/
inductive InsOutcome where
  | ok
  | fkViolationRemote
  | dbErr (e : SErr)
  deriving DecidableEq

/-- Environment of one CreateReplication call: outcomes of the bucket
lookup, the id allocation, InitializeQueue, query building (q.ToSql), the
INSERT execution, and the compensating DeleteQueue. -/
structure CreateEnv where
  bucketFindErr : Option SErr
  newID : ID
  initQueueErr : Option SErr
  toSqlErr : Option SErr
  insOutcome : InsOutcome
  deleteQueueErr : Option SErr

/-- Warning logged by cleanupQueue when the compensating DeleteQueue fails
("durable queue remaining on disk after initialization failure"). -/
def cleanupWarnMsg (i : ID) : String :=
  "durable queue remaining on disk after initialization failure: " ++ toString i

/-- Row the INSERT of CreateReplication binds, column by column from the
source: both timestamp columns are bound as the plain string parameter
"datetime(\x27now\x27)", not as a SQL expression. -/
def insertRowFor (env : CreateEnv) (req : CreateRequest) : InsertRow :=
  { id := env.newID
    orgID := req.orgID
    name := req.name
    description := req.description
    remoteID := req.remoteID
    localBucketID := req.localBucketID
    remoteBucketID := req.remoteBucketID
    maxQueueSizeBytes := req.maxQueueSizeBytes
    dropNonRetryableData := req.dropNonRetryableData
    createdAtVal := SqlVal.param "datetime(\x27now\x27)"
    updatedAtVal := SqlVal.param "datetime(\x27now\x27)" }

/-- Result of one CreateReplication call: the returned row or error, the
InitializeQueue and DeleteQueue invocations, and the log lines. -/
structure CreateOut where
  res : Except SErr InsertRow
  initQueueCalls : List (ID × Int)
  deleteQueueCalls : List ID
  logs : List String

/-- CreateReplication, translated from service.go: bucket existence check,
queue initialization, then the INSERT; every failure after the queue was
initialized runs cleanupQueue (whose own failure is only logged), and a
foreign-key violation is translated to errRemoteNotFound on the request's
remote id. -/
def createReplication (env : CreateEnv) (req : CreateRequest) : CreateOut :=
  match env.bucketFindErr with
  | some _ =>
    { res := Except.error (errLocalBucketNotFound req.localBucketID)
      initQueueCalls := [], deleteQueueCalls := [], logs := [] }
  | none =>
    match env.initQueueErr with
    | some e =>
      { res := Except.error e
        initQueueCalls := [(env.newID, req.maxQueueSizeBytes)]
        deleteQueueCalls := [], logs := [] }
    | none =>
      let cleanLogs : List String :=
        match env.deleteQueueErr with
        | some _ => [cleanupWarnMsg env.newID]
        | none => []
      match env.toSqlErr with
      | some e =>
        { res := Except.error e
          initQueueCalls := [(env.newID, req.maxQueueSizeBytes)]
          deleteQueueCalls := [env.newID], logs := cleanLogs }
      | none =>
        match env.insOutcome with
        | InsOutcome.ok =>
          { res := Except.ok (insertRowFor env req)
            initQueueCalls := [(env.newID, req.maxQueueSizeBytes)]
            deleteQueueCalls := [], logs := [] }
        | InsOutcome.fkViolationRemote =>
          { res := Except.error (errRemoteNotFound req.remoteID)
            initQueueCalls := [(env.newID, req.maxQueueSizeBytes)]
            deleteQueueCalls := [env.newID], logs := cleanLogs }
        | InsOutcome.dbErr e =>
          { res := Except.error e
            initQueueCalls := [(env.newID, req.maxQueueSizeBytes)]
            deleteQueueCalls := [env.newID], logs := cleanLogs }

/- ===== UpdateReplication (service.go) ===== -/

/-- Catalog row as stored in the replications table (timestamps already
evaluated to their stored text). -/
structure CatRow where
  id : ID
  orgID : ID
  name : String
  description : String
  remoteID : ID
  localBucketID : ID
  remoteBucketID : ID
  maxQueueSizeBytes : Int
  dropNonRetryableData : Bool
  createdAt : String
  updatedAt : String
  deriving DecidableEq

/-- UpdateReplicationRequest: every field optional; only the non-nil ones
enter the UPDATE's SetMap. -/
structure UpdateRequest where
  name : Option String
  description : Option String
  remoteID : Option ID
  remoteBucketID : Option ID
  maxQueueSizeBytes : Option Int
  dropNonRetryableData : Option Bool
  deriving DecidableEq

/-- Effect of the UPDATE statement on the matched row: overlay the non-nil
request fields and set updated_at to the engine-evaluated now() (this UPDATE
uses sq.Expr, so the clock value is stored). -/
def applyUpdate (now : String) (req : UpdateRequest) (r : CatRow) : CatRow :=
  { r with
    name := req.name.getD r.name
    description := req.description.getD r.description
    remoteID := req.remoteID.getD r.remoteID
    remoteBucketID := req.remoteBucketID.getD r.remoteBucketID
    maxQueueSizeBytes := req.maxQueueSizeBytes.getD r.maxQueueSizeBytes
    dropNonRetryableData := req.dropNonRetryableData.getD r.dropNonRetryableData
    updatedAt := now }

/-- Outcome of executing the UPDATE when a row matched: success, a
foreign-key violation, or another database error (a missing row is
determined by the catalog itself). -/
inductive UpdDbOutcome where
  | ok
  | fkViolation
  | dbErr (e : SErr)
  deriving DecidableEq

/-- Environment of one UpdateReplication call: the engine clock, the UPDATE
outcome, the UpdateMaxQueueSize outcome, and the CurrentQueueSizes report. -/
structure UpdateEnv where
  now : String
  dbOutcome : UpdDbOutcome
  umqsErr : Option SErr
  sizes : Except SErr Int

/-- Warning logged when UpdateMaxQueueSize fails after the catalog UPDATE
("actual max queue size does not match the max queue size recorded in
database"). -/
def resizeWarnMsg (i : ID) : String :=
  "actual max queue size does not match the max queue size recorded in database: " ++ toString i

/-- Result of one UpdateReplication call: returned row (with its spliced
current queue size) or error, the catalog afterwards, the
UpdateMaxQueueSize invocations, and the log lines. -/
structure UpdateOut where
  res : Except SErr (CatRow × Int)
  catalog : List CatRow
  umqsCalls : List (ID × Int)
  logs : List String

/-- Tail of UpdateReplication after the catalog UPDATE and the optional
queue resize both succeeded: splice the current queue size from the queue
manager into the returned row. -/
def updFinish (env : UpdateEnv) (r2 : CatRow) (cat2 : List CatRow)
    (calls : List (ID × Int)) : UpdateOut :=
  match env.sizes with
  | Except.error e => { res := Except.error e, catalog := cat2, umqsCalls := calls, logs := [] }
  | Except.ok n => { res := Except.ok (r2, n), catalog := cat2, umqsCalls := calls, logs := [] }

/-- UpdateReplication, translated from service.go: UPDATE with RETURNING
(no row yields errReplicationNotFound; a foreign-key violation with a
remote_id in the request yields errRemoteNotFound); then, only if
max_queue_size_bytes was set, UpdateMaxQueueSize — whose failure is logged
as a divergence warning and returned while the catalog keeps the already
performed mutation; finally the queue size splice. -/
def updateReplication (env : UpdateEnv) (i : ID) (req : UpdateRequest)
    (cat : List CatRow) : UpdateOut :=
  match cat.find? (fun r => r.id == i) with
  | none =>
    { res := Except.error errReplicationNotFound, catalog := cat, umqsCalls := [], logs := [] }
  | some r =>
    match env.dbOutcome with
    | UpdDbOutcome.fkViolation =>
      match req.remoteID with
      | some rid =>
        { res := Except.error (errRemoteNotFound rid), catalog := cat, umqsCalls := [], logs := [] }
      | none =>
        { res := Except.error ⟨ErrCode.internal, "FOREIGN KEY constraint failed"⟩
          catalog := cat, umqsCalls := [], logs := [] }
    | UpdDbOutcome.dbErr e =>
      { res := Except.error e, catalog := cat, umqsCalls := [], logs := [] }
    | UpdDbOutcome.ok =>
      let r2 := applyUpdate env.now req r
      let cat2 := cat.map (fun x => if x.id == i then applyUpdate env.now req x else x)
      match req.maxQueueSizeBytes with
      | some v =>
        match env.umqsErr with
        | some e =>
          { res := Except.error e, catalog := cat2
            umqsCalls := [(i, v)], logs := [resizeWarnMsg i] }
        | none => updFinish env r2 cat2 [(i, v)]
      | none => updFinish env r2 cat2 []

/- ===== DeleteReplication / DeleteBucketReplications (service.go) ===== -/

/-- Result of one DeleteReplication call. -/
structure DelOut where
  res : Except SErr Unit
  catalog : List CatRow
  deleteQueueCalls : List ID
  logs : List String

/-- DeleteReplication, translated from service.go: DELETE with RETURNING id
(no row yields errReplicationNotFound), then one DeleteQueue call whose
error is returned to the caller as is — nothing is logged and nothing is
aggregated on this path. -/
def deleteReplication (i : ID) (cat : List CatRow) (dq : ID → Option SErr) : DelOut :=
  match cat.find? (fun r => r.id == i) with
  | none =>
    { res := Except.error errReplicationNotFound, catalog := cat
      deleteQueueCalls := [], logs := [] }
  | some _ =>
    let cat2 := cat.filter (fun r => !(r.id == i))
    match dq i with
    | some e =>
      { res := Except.error e, catalog := cat2, deleteQueueCalls := [i], logs := [] }
    | none =>
      { res := Except.ok (), catalog := cat2, deleteQueueCalls := [i], logs := [] }

/-- Final state of a run of DeleteBucketReplications: a normal return (nil
or an error) or the nil-pointer dereference panic that aborts the Go
process. -/
inductive RunOutcome where
  | ok
  | err (e : SErr)
  | nilPanic
  deriving DecidableEq

/-- Error line logged inside the deletion loop, for a failed id parse as
well as for a failed DeleteQueue ("durable queue remaining on disk after
deletion failure", with the raw id string). -/
def dbrFailLogMsg (s : String) (m : String) : String :=
  "durable queue remaining on disk after deletion failure: " ++ s ++ ": " ++ m

/-- Aggregated error DeleteBucketReplications returns after the loop when
at least one step failed. -/
def aggErrMsg (b : ID) : SErr :=
  ⟨ErrCode.internal,
    "deleting replications for bucket " ++ toString b ++ " failed, see server logs for details"⟩

/-- Result of one DeleteBucketReplications call. -/
structure DbrOut where
  outcome : RunOutcome
  deleteQueueCalls : List ID
  logs : List String

/-- Deletion loop of DeleteBucketReplications, translated statement by
statement: for each returned id string, parse it with platform.IDFromString;
on a parse failure the error is logged and errOccurred set, but the code
then still evaluates DeleteQueue(*id) on the nil pointer — the model
reflects that by aborting the run with nilPanic.  On a successful parse,
a DeleteQueue failure is logged, errOccurred set, and the loop continues.
After the loop a single aggregated error is returned iff anything failed. -/
def dbrLoop (b : ID) (dq : ID → Option SErr) :
    List String → Bool → List ID → List String → DbrOut
  | [], errOcc, calls, logs =>
    { outcome := if errOcc then RunOutcome.err (aggErrMsg b) else RunOutcome.ok
      deleteQueueCalls := calls, logs := logs }
  | s :: rest, errOcc, calls, logs =>
    match idFromString s with
    | none =>
      { outcome := RunOutcome.nilPanic, deleteQueueCalls := calls
        logs := logs ++ [dbrFailLogMsg s "invalid ID"] }
    | some j =>
      match dq j with
      | some e => dbrLoop b dq rest true (calls ++ [j]) (logs ++ [dbrFailLogMsg s e.msg])
      | none => dbrLoop b dq rest errOcc (calls ++ [j]) logs

/-- DeleteBucketReplications, translated from service.go.  `deleted` is the
list of id strings the DELETE ... RETURNING id scan produced for the rows
whose local_bucket_id matched (SQLite stores the column as text, so the
strings are whatever the catalog holds); the loop then runs over them. -/
def deleteBucketReplications (b : ID) (deleted : List String)
    (dq : ID → Option SErr) : DbrOut :=
  dbrLoop b dq deleted false [] []

/-- One loop step fails when the id string does not parse or, when it does,
DeleteQueue fails on the parsed id. -/
def dbrFails (dq : ID → Option SErr) (s : String) : Bool :=
  match idFromString s with
  | none => true
  | some j => (dq j).isSome

/-- Log lines the loop produces over a list of id strings that all parse. -/
def dbrLogsOf (dq : ID → Option SErr) (l : List String) : List String :=
  l.filterMap (fun s => (idFromString s).bind (fun j => (dq j).map (fun e => dbrFailLogMsg s e.msg)))

/- ===== Concrete instances used to evaluate the model ===== -/

/-- Empty queue state. -/
def qEmpty : ID → List Bytes := fun _ => []

/-- Queue manager with every DeleteQueue succeeding. -/
def dqOk : ID → Option SErr := fun _ => none

/-- Environment in which the local write fails and everything else would
succeed. -/
def wEnvLocalFail : WpEnv :=
  { localWriteErr := some ⟨ErrCode.internal, "tsm write failed"⟩
    writeErrAt := fun _ => none
    closeErr := none
    enqueueErr := fun _ => none
    compress := fun b => b }

/-- Environment in which both hot-path tasks succeed and the enqueue for
replication 2 fails with a queue-full error, with the gzip codec taken as
the identity coding. -/
def wEnvEnq2Fail : WpEnv :=
  { localWriteErr := none
    writeErrAt := fun _ => none
    closeErr := none
    enqueueErr := fun i => if i = 2 then some ⟨ErrCode.internal, "queue full"⟩ else none
    compress := fun b => b }

/-- Environment in which every external call of the hot path succeeds,
with the gzip codec taken as the identity coding. -/
def wEnvAllOk : WpEnv :=
  { localWriteErr := none
    writeErrAt := fun _ => none
    closeErr := none
    enqueueErr := fun _ => none
    compress := fun b => b }

/-- Two concrete points in nanosecond line protocol. -/
def pts2 : List Point := [⟨"m v=1 1".data⟩, ⟨"m v=2 2".data⟩]

/-- One concrete point in nanosecond line protocol. -/
def pts1 : List Point := [⟨"m v=1 1".data⟩]

/-- Concrete create request. -/
def reqA : CreateRequest :=
  { orgID := 10, name := "r1", description := "", remoteID := 77
    localBucketID := 20, remoteBucketID := 30
    maxQueueSizeBytes := 67108860, dropNonRetryableData := false }

/-- Create environment: queue initialized, INSERT hits the remote_id
foreign-key violation, and the compensating DeleteQueue itself fails. -/
def cEnvFk : CreateEnv :=
  { bucketFindErr := none, newID := 42, initQueueErr := none
    toSqlErr := none, insOutcome := InsOutcome.fkViolationRemote
    deleteQueueErr := some ⟨ErrCode.internal, "remove failed"⟩ }

/-- Create environment in which every step succeeds. -/
def cEnvOk : CreateEnv :=
  { bucketFindErr := none, newID := 42, initQueueErr := none
    toSqlErr := none, insOutcome := InsOutcome.ok, deleteQueueErr := none }

/-- Concrete catalog row with id 3. -/
def rowA : CatRow :=
  { id := 3, orgID := 10, name := "r1", description := "", remoteID := 77
    localBucketID := 20, remoteBucketID := 30, maxQueueSizeBytes := 67108860
    dropNonRetryableData := false, createdAt := "t0", updatedAt := "t0" }

/-- Queue manager whose DeleteQueue fails on id 3 with a disk error. -/
def dqFail3 : ID → Option SErr :=
  fun i => if i = 3 then some ⟨ErrCode.internal, "disk"⟩ else none

/-- Update request that only resizes the queue. -/
def uReqResize : UpdateRequest :=
  { name := none, description := none, remoteID := none, remoteBucketID := none
    maxQueueSizeBytes := some 1024, dropNonRetryableData := none }

/-- Update environment: the UPDATE succeeds and UpdateMaxQueueSize then
fails. -/
def uEnvResizeFail : UpdateEnv :=
  { now := "t1", dbOutcome := UpdDbOutcome.ok
    umqsErr := some ⟨ErrCode.internal, "resize failed"⟩
    sizes := Except.ok 0 }

/- ===== Helper lemmas ===== -/

/-- Unfolding of the uncompressed stream into the claim's shape: the
concatenation of each point's line protocol terminated by a newline. -/
theorem lpConcat_eq_flatten (points : List Point) :
    lpConcat points = (points.map (fun p => p.lp ++ ['\n'])).flatten := by
  induction points with
  | nil => simp [lpConcat]
  | cons p rest ih => simp [lpConcat, ih]

/-- Correctness of the serialization task when no gzip write or close
fails: it returns the compression of the accumulator followed by the
stream of newline-terminated points. -/
theorem serializeLoop_ok (env : WpEnv) (hw : ∀ i, env.writeErrAt i = none)
    (hc : env.closeErr = none) :
    ∀ (points : List Point) (i : Nat) (acc : Bytes),
      serializeLoop env points i acc = Except.ok (env.compress (acc ++ lpConcat points)) := by
  intro points
  induction points with
  | nil => intro i acc; simp [serializeLoop, hc, lpConcat]
  | cons p rest ih =>
    intro i acc
    simp [serializeLoop, hw i, ih, lpConcat, List.append_assoc]

/-- Fan-out performs one EnqueueData invocation per id, in order, all with
the same buffer and point count. -/
theorem fanout_enqueued (env : WpEnv) (buf : Bytes) (n : Nat) :
    ∀ (ids : List ID) (qs : ID → List Bytes),
      (fanout env buf n ids qs).2.1 = ids.map (fun i => (i, buf, n)) := by
  intro ids
  induction ids with
  | nil => intro qs; simp [fanout]
  | cons i rest ih =>
    intro qs
    cases h : env.enqueueErr i <;> simp [fanout, h, ih]

/-- Fan-out logs exactly one failure line per id whose enqueue failed. -/
theorem fanout_logs (env : WpEnv) (buf : Bytes) (n : Nat) :
    ∀ (ids : List ID) (qs : ID → List Bytes),
      (fanout env buf n ids qs).2.2
        = ids.filterMap (fun i => (env.enqueueErr i).map (enqueueFailLogMsg i)) := by
  intro ids
  induction ids with
  | nil => intro qs; simp [fanout]
  | cons i rest ih =>
    intro qs
    cases h : env.enqueueErr i <;> simp [fanout, h, ih]

/-- Queues of ids the fan-out does not visit are untouched. -/
theorem fanout_queues_not_mem (env : WpEnv) (buf : Bytes) (n : Nat) :
    ∀ (ids : List ID) (qs : ID → List Bytes) (j : ID), j ∉ ids →
      (fanout env buf n ids qs).1 j = qs j := by
  intro ids
  induction ids with
  | nil => intro qs j _; simp [fanout]
  | cons i rest ih =>
    intro qs j hj
    have hji : j ≠ i := fun h => hj (h ▸ List.mem_cons_self i rest)
    have hjr : j ∉ rest := fun h => hj (List.mem_cons_of_mem i h)
    cases h : env.enqueueErr i with
    | none =>
      simp only [fanout, h]
      rw [ih _ j hjr]
      simp [hji]
    | some e =>
      simp only [fanout, h]
      exact ih _ j hjr

/-- Queue of a visited id after fan-out over distinct ids: one appended
record when its enqueue succeeded, unchanged when it failed. -/
theorem fanout_queues_mem (env : WpEnv) (buf : Bytes) (n : Nat) :
    ∀ (ids : List ID) (qs : ID → List Bytes) (j : ID), ids.Nodup → j ∈ ids →
      (fanout env buf n ids qs).1 j
        = qs j ++ (if (env.enqueueErr j).isSome then [] else [buf]) := by
  intro ids
  induction ids with
  | nil => intro qs j _ hj; cases hj
  | cons i rest ih =>
    intro qs j hnd hj
    have hnotr : i ∉ rest := (List.nodup_cons.mp hnd).1
    have hndr : rest.Nodup := (List.nodup_cons.mp hnd).2
    rcases List.mem_cons.mp hj with hji | hjr
    · subst hji
      cases h : env.enqueueErr j with
      | none =>
        simp only [fanout, h]
        rw [fanout_queues_not_mem env buf n rest _ j hnotr]
        simp [h]
      | some e =>
        simp only [fanout, h]
        rw [fanout_queues_not_mem env buf n rest qs j hnotr]
        simp [h]
    · have hji : j ≠ i := fun h => hnotr (h ▸ hjr)
      cases h : env.enqueueErr i with
      | none =>
        simp only [fanout, h]
        rw [ih _ j hndr hjr]
        simp [hji]
      | some e =>
        simp only [fanout, h]
        exact ih _ j hndr hjr

/-- Characterization of the queue-deletion loop of DeleteBucketReplications
when every id string parses: every id is processed (the loop never stops
early), each DeleteQueue failure contributes one log line, and the outcome
is the single aggregated error exactly when the error flag was set or some
deletion failed. -/
theorem dbrLoop_spec (b : ID) (dq : ID → Option SErr) :
    ∀ (l : List String), (∀ s ∈ l, (idFromString s).isSome) →
      ∀ (errOcc : Bool) (calls : List ID) (logs : List String),
        dbrLoop b dq l errOcc calls logs =
          { outcome := if errOcc || l.any (dbrFails dq)
              then RunOutcome.err (aggErrMsg b) else RunOutcome.ok
            deleteQueueCalls := calls ++ l.filterMap idFromString
            logs := logs ++ dbrLogsOf dq l } := by
  intro l
  induction l with
  | nil => intro _ errOcc calls logs; simp [dbrLoop, dbrLogsOf]
  | cons s rest ih =>
    intro hall errOcc calls logs
    obtain ⟨j, hj⟩ := Option.isSome_iff_exists.mp (hall s (List.mem_cons_self s rest))
    have hrest : ∀ t ∈ rest, (idFromString t).isSome :=
      fun t ht => hall t (List.mem_cons_of_mem s ht)
    cases hq : dq j with
    | none =>
      simp [dbrLoop, hj, hq, ih hrest, dbrFails, dbrLogsOf, List.filterMap_cons]
    | some e =>
      simp [dbrLoop, hj, hq, ih hrest, dbrFails, dbrLogsOf, List.filterMap_cons,
        List.append_assoc]

/- ===== Claim theorems ===== -/

/-- Claim C1: when at least one replication matches and either the
local-write task or the serialization task fails, WritePoints returns that
task's error, EnqueueData is invoked on no queue, and every queue is left
unchanged. -/
theorem writePoints_task_error_no_enqueue (env : WpEnv) (ids : List ID)
    (points : List Point) (qs : ID → List Bytes) (e : SErr)
    (hne : ids ≠ [])
    (h : env.localWriteErr = some e ∨
      (env.localWriteErr = none ∧ serializeLoop env points 0 [] = Except.error e)) :
    (writePoints env ids points qs).res = some e ∧
    (writePoints env ids points qs).enqueued = [] ∧
    (writePoints env ids points qs).queues = qs := by
  cases ids with
  | nil => exact absurd rfl hne
  | cons i rest =>
    rcases h with hl | ⟨hl, hs⟩
    · simp [writePoints, wpMatched, hl]
    · simp [writePoints, wpMatched, hl, hs]

/-- Concrete run of the C1 theorem: replication 1 matches, the local write
fails with a tsm error, and WritePoints returns it with no enqueues and
untouched queues. -/
theorem writePoints_task_error_no_enqueue_wit :
    (writePoints wEnvLocalFail [1] pts1 qEmpty).res
      = some ⟨ErrCode.internal, "tsm write failed"⟩ ∧
    (writePoints wEnvLocalFail [1] pts1 qEmpty).enqueued = [] ∧
    (writePoints wEnvLocalFail [1] pts1 qEmpty).queues = qEmpty :=
  writePoints_task_error_no_enqueue wEnvLocalFail [1] pts1 qEmpty
    ⟨ErrCode.internal, "tsm write failed"⟩ (by simp) (Or.inl rfl)

/-- Claim C2: when at least one replication matches and both hot-path
tasks succeed, WritePoints invokes EnqueueData once per matched id with
the same gzipped buffer and the point count, logs — and does not return —
each individual enqueue failure, awaits the whole fan-out, and returns
success; a succeeding enqueue appends the buffer as a record to that id's
queue and a failing one leaves it unchanged. -/
theorem writePoints_success_fanout (env : WpEnv) (ids : List ID)
    (points : List Point) (qs : ID → List Bytes) (buf : Bytes)
    (hne : ids ≠ []) (hl : env.localWriteErr = none)
    (hs : serializeLoop env points 0 [] = Except.ok buf)
    (hnd : ids.Nodup) :
    (writePoints env ids points qs).res = none ∧
    (writePoints env ids points qs).enqueued
      = ids.map (fun i => (i, buf, points.length)) ∧
    (writePoints env ids points qs).logs
      = ids.filterMap (fun i => (env.enqueueErr i).map (enqueueFailLogMsg i)) ∧
    ∀ i ∈ ids, (writePoints env ids points qs).queues i
      = qs i ++ (if (env.enqueueErr i).isSome then [] else [buf]) := by
  cases ids with
  | nil => exact absurd rfl hne
  | cons i0 rest =>
    refine ⟨by simp [writePoints, wpMatched, hl, hs],
      by simp [writePoints, wpMatched, hl, hs, fanout_enqueued],
      by simp [writePoints, wpMatched, hl, hs, fanout_logs], ?_⟩
    intro i hi
    have hq := fanout_queues_mem env buf points.length (i0 :: rest) qs i hnd hi
    simpa [writePoints, wpMatched, hl, hs] using hq

/-- Concrete run of the C2 theorem: replications 1 and 2 match, the
enqueue for 2 fails with a queue-full error; WritePoints succeeds, both
enqueues are invoked with the same buffer, the failure for 2 is logged,
queue 1 gains the record and queue 2 is unchanged. -/
theorem writePoints_success_fanout_wit :
    (writePoints wEnvEnq2Fail [1, 2] pts1 qEmpty).res = none ∧
    (writePoints wEnvEnq2Fail [1, 2] pts1 qEmpty).enqueued
      = [1, 2].map (fun i => (i, "m v=1 1".data ++ ['\n'], pts1.length)) ∧
    (writePoints wEnvEnq2Fail [1, 2] pts1 qEmpty).logs
      = [1, 2].filterMap (fun i => (wEnvEnq2Fail.enqueueErr i).map (enqueueFailLogMsg i)) ∧
    ∀ i ∈ [1, 2], (writePoints wEnvEnq2Fail [1, 2] pts1 qEmpty).queues i
      = qEmpty i ++ (if (wEnvEnq2Fail.enqueueErr i).isSome then []
          else ["m v=1 1".data ++ ['\n']]) :=
  writePoints_success_fanout wEnvEnq2Fail [1, 2] pts1 qEmpty
    ("m v=1 1".data ++ ['\n']) (by simp) rfl rfl (by decide)

/-- Claim C4: for a nonempty points list, every record a successful
WritePoints enqueues is the compression of the concatenation, in point
order, of each point's nanosecond line protocol terminated by a newline;
gunzipping (any left inverse of the gzip codec) recovers exactly that
concatenation. -/
theorem writePoints_enqueued_payload (env : WpEnv) (ids : List ID)
    (points : List Point) (qs : ID → List Bytes) (decompress : Bytes → Bytes)
    (hround : ∀ b, decompress (env.compress b) = b)
    (hne : ids ≠ []) (_hpts : points ≠ [])
    (hl : env.localWriteErr = none)
    (hw : ∀ i, env.writeErrAt i = none) (hc : env.closeErr = none) :
    (writePoints env ids points qs).enqueued
      = ids.map (fun i => (i, env.compress (lpConcat points), points.length)) ∧
    decompress (env.compress (lpConcat points)) = lpConcat points ∧
    lpConcat points = (points.map (fun p => p.lp ++ ['\n'])).flatten := by
  have hs : serializeLoop env points 0 [] = Except.ok (env.compress (lpConcat points)) := by
    simpa using serializeLoop_ok env hw hc points 0 []
  cases ids with
  | nil => exact absurd rfl hne
  | cons i0 rest =>
    exact ⟨by simp [writePoints, wpMatched, hl, hs, fanout_enqueued],
      hround _, lpConcat_eq_flatten points⟩

/-- Concrete run of the C4 theorem: replication 7 matches, both points are
serialized, and the enqueued record decompresses to the two
newline-terminated line-protocol lines in order. -/
theorem writePoints_enqueued_payload_wit :
    (writePoints wEnvAllOk [7] pts2 qEmpty).enqueued
      = [7].map (fun i => (i, wEnvAllOk.compress (lpConcat pts2), pts2.length)) ∧
    (fun b => b) (wEnvAllOk.compress (lpConcat pts2)) = lpConcat pts2 ∧
    lpConcat pts2 = (pts2.map (fun p => p.lp ++ ['\n'])).flatten :=
  writePoints_enqueued_payload wEnvAllOk [7] pts2 qEmpty (fun b => b)
    (fun _ => rfl) (by simp) (by simp [pts2]) rfl (fun _ => rfl) rfl

/-- Claim C3: in CreateReplication, once the queue was initialized, any
failure of the catalog insert (query building or execution) triggers the
compensating DeleteQueue on the new id; a failure of that cleanup changes
only the log, never the returned error; and a foreign-key constraint
violation on remote_id is returned as the invalid-argument error naming
the request's remote id as not found. -/
theorem createReplication_insert_failure_cleanup (env : CreateEnv) (req : CreateRequest)
    (hb : env.bucketFindErr = none) (hq : env.initQueueErr = none)
    (hfail : env.toSqlErr ≠ none ∨ env.insOutcome ≠ InsOutcome.ok) :
    (createReplication env req).deleteQueueCalls = [env.newID] ∧
    (createReplication env req).res
      = (createReplication { env with deleteQueueErr := none } req).res ∧
    (env.deleteQueueErr ≠ none →
      (createReplication env req).logs = [cleanupWarnMsg env.newID]) ∧
    (env.toSqlErr = none → env.insOutcome = InsOutcome.fkViolationRemote →
      (createReplication env req).res = Except.error (errRemoteNotFound req.remoteID)) := by
  cases hts : env.toSqlErr with
  | some e =>
    cases hdq : env.deleteQueueErr <;>
      simp [createReplication, hb, hq, hts, hdq]
  | none =>
    cases hio : env.insOutcome with
    | ok => simp [hts, hio] at hfail
    | fkViolationRemote =>
      cases hdq : env.deleteQueueErr <;>
        simp [createReplication, hb, hq, hts, hio, hdq]
    | dbErr e =>
      cases hdq : env.deleteQueueErr <;>
        simp [createReplication, hb, hq, hts, hio, hdq]

/-- Concrete run of the C3 theorem: queue 42 is initialized, the INSERT
hits the remote_id foreign-key violation, the compensating DeleteQueue
itself fails: the cleanup is invoked and logged, the cleanup failure does
not change the returned error, and the caller sees the invalid-argument
remote-not-found error for remote 77. -/
theorem createReplication_insert_failure_cleanup_wit :
    (createReplication cEnvFk reqA).deleteQueueCalls = [cEnvFk.newID] ∧
    (createReplication cEnvFk reqA).res
      = (createReplication { cEnvFk with deleteQueueErr := none } reqA).res ∧
    (cEnvFk.deleteQueueErr ≠ none →
      (createReplication cEnvFk reqA).logs = [cleanupWarnMsg cEnvFk.newID]) ∧
    (cEnvFk.toSqlErr = none → cEnvFk.insOutcome = InsOutcome.fkViolationRemote →
      (createReplication cEnvFk reqA).res = Except.error (errRemoteNotFound reqA.remoteID)) :=
  createReplication_insert_failure_cleanup cEnvFk reqA rfl rfl (Or.inr (by decide))

/-- Claim C8 (code bug): the successful CreateReplication INSERT binds the
plain string "datetime(\x27now\x27)" as the driver parameter for both
timestamp columns — unlike UpdateReplication, which passes it as a SQL
expression — so the stored created_at and updated_at text is that literal,
for every possible clock reading, instead of the evaluated now()
timestamp. -/
theorem createReplication_timestamp_literal (env : CreateEnv) (req : CreateRequest)
    (hb : env.bucketFindErr = none) (hq : env.initQueueErr = none)
    (ht : env.toSqlErr = none) (hi : env.insOutcome = InsOutcome.ok) :
    (createReplication env req).res = Except.ok (insertRowFor env req) ∧
    (insertRowFor env req).createdAtVal = SqlVal.param "datetime(\x27now\x27)" ∧
    (insertRowFor env req).updatedAtVal = SqlVal.param "datetime(\x27now\x27)" ∧
    ∀ now : String,
      SqlVal.storedText now (insertRowFor env req).createdAtVal = "datetime(\x27now\x27)" ∧
      (now ≠ "datetime(\x27now\x27)" →
        SqlVal.storedText now (insertRowFor env req).createdAtVal ≠ now) := by
  refine ⟨by simp [createReplication, hb, hq, ht, hi], rfl, rfl, ?_⟩
  intro now
  exact ⟨rfl, fun h hcontra => h hcontra.symm⟩

/-- Concrete run of the C8 theorem: a fully successful create at clock
reading "2024-06-01 12:00:00" stores the literal text
"datetime(\x27now\x27)" in created_at, which differs from the clock
reading the claim requires. -/
theorem createReplication_timestamp_literal_wit :
    (createReplication cEnvOk reqA).res = Except.ok (insertRowFor cEnvOk reqA) ∧
    SqlVal.storedText "2024-06-01 12:00:00" (insertRowFor cEnvOk reqA).createdAtVal
      = "datetime(\x27now\x27)" ∧
    SqlVal.storedText "2024-06-01 12:00:00" (insertRowFor cEnvOk reqA).createdAtVal
      ≠ "2024-06-01 12:00:00" := by
  have h := createReplication_timestamp_literal cEnvOk reqA rfl rfl rfl rfl
  exact ⟨h.1, (h.2.2.2 "2024-06-01 12:00:00").1, (h.2.2.2 "2024-06-01 12:00:00").2 (by decide)⟩

/-- Claim C5: in UpdateReplication with max_queue_size_bytes set and the
catalog UPDATE succeeded, UpdateMaxQueueSize(id, value) is invoked and the
output catalog already carries the row mutation; when the resize fails,
the divergence warning is logged, the resize error is surfaced to the
caller, and the mutated catalog is kept as is (no rollback). -/
theorem updateReplication_resize (env : UpdateEnv) (i : ID) (req : UpdateRequest)
    (cat : List CatRow) (r : CatRow) (v : Int)
    (hr : cat.find? (fun x => x.id == i) = some r)
    (hdb : env.dbOutcome = UpdDbOutcome.ok)
    (hv : req.maxQueueSizeBytes = some v) :
    (updateReplication env i req cat).umqsCalls = [(i, v)] ∧
    (updateReplication env i req cat).catalog
      = cat.map (fun x => if x.id == i then applyUpdate env.now req x else x) ∧
    ∀ e, env.umqsErr = some e →
      (updateReplication env i req cat).res = Except.error e ∧
      (updateReplication env i req cat).logs = [resizeWarnMsg i] := by
  cases hu : env.umqsErr with
  | some e => simp [updateReplication, hr, hdb, hv, hu]
  | none =>
    cases hsz : env.sizes <;>
      simp [updateReplication, updFinish, hr, hdb, hv, hu, hsz]

/-- Concrete run of the C5 theorem: resizing replication 3 to 1024 bytes,
the UPDATE succeeds and UpdateMaxQueueSize fails: the resize was invoked,
the catalog keeps the mutated row, the warning is logged and the resize
error is surfaced. -/
theorem updateReplication_resize_wit :
    (updateReplication uEnvResizeFail 3 uReqResize [rowA]).umqsCalls = [(3, 1024)] ∧
    (updateReplication uEnvResizeFail 3 uReqResize [rowA]).catalog
      = [rowA].map (fun x => if x.id == 3 then applyUpdate uEnvResizeFail.now uReqResize x else x) ∧
    (updateReplication uEnvResizeFail 3 uReqResize [rowA]).res
      = Except.error ⟨ErrCode.internal, "resize failed"⟩ ∧
    (updateReplication uEnvResizeFail 3 uReqResize [rowA]).logs = [resizeWarnMsg 3] := by
  have h := updateReplication_resize uEnvResizeFail 3 uReqResize [rowA] rowA 1024 rfl rfl rfl
  exact ⟨h.1, h.2.1, (h.2.2 ⟨ErrCode.internal, "resize failed"⟩ rfl).1,
    (h.2.2 ⟨ErrCode.internal, "resize failed"⟩ rfl).2⟩

/-- Claim C6 counterexample: DeleteReplication of id 3 with the catalog
row present and DeleteQueue failing returns the raw disk error with an
empty log — refuting, at this concrete input, the claim that on both
delete paths each queue-deletion failure is logged and a single aggregated
error is returned after the loop. -/
theorem deleteReplication_raw_error_cex :
    (deleteReplication 3 [rowA] dqFail3).res = Except.error ⟨ErrCode.internal, "disk"⟩ ∧
    (deleteReplication 3 [rowA] dqFail3).logs = [] :=
  ⟨rfl, rfl⟩

/-- Claim C6 amended: in DeleteBucketReplications (over ids that parse)
every queue-deletion failure is logged, the loop continues with the
remaining ids, and one aggregated error is returned after the loop; in
DeleteReplication, by contrast, a queue-deletion failure is returned to
the caller directly, with nothing logged and no aggregation. -/
theorem deleteQueue_failure_handling :
    (∀ (i : ID) (cat : List CatRow) (dq : ID → Option SErr) (e : SErr),
      (cat.find? (fun x => x.id == i)).isSome → dq i = some e →
        (deleteReplication i cat dq).res = Except.error e ∧
        (deleteReplication i cat dq).logs = []) ∧
    (∀ (b : ID) (deleted : List String) (dq : ID → Option SErr),
      (∀ s ∈ deleted, (idFromString s).isSome) →
        (deleteBucketReplications b deleted dq).deleteQueueCalls
          = deleted.filterMap idFromString ∧
        (deleteBucketReplications b deleted dq).logs = dbrLogsOf dq deleted ∧
        (deleteBucketReplications b deleted dq).outcome
          = (if deleted.any (dbrFails dq) then RunOutcome.err (aggErrMsg b)
              else RunOutcome.ok)) := by
  constructor
  · intro i cat dq e hf he
    obtain ⟨r, hr⟩ := Option.isSome_iff_exists.mp hf
    simp [deleteReplication, hr, he]
  · intro b deleted dq hall
    have h := dbrLoop_spec b dq deleted hall false [] []
    simp [deleteBucketReplications, h]

/-- Concrete run of the C6 theorem: DeleteReplication of id 3 surfaces the
raw disk error unlogged, while DeleteBucketReplications over the single
parsed id 3 with the same failing queue manager logs the failure, still
calls DeleteQueue, and returns the aggregated bucket error. -/
theorem deleteQueue_failure_handling_wit :
    (deleteReplication 3 [rowA] dqFail3).res = Except.error ⟨ErrCode.internal, "disk"⟩ ∧
    (deleteBucketReplications 20 ["0000000000000003"] dqFail3).deleteQueueCalls
      = ["0000000000000003"].filterMap idFromString ∧
    (deleteBucketReplications 20 ["0000000000000003"] dqFail3).logs
      = dbrLogsOf dqFail3 ["0000000000000003"] ∧
    (deleteBucketReplications 20 ["0000000000000003"] dqFail3).outcome
      = (if ["0000000000000003"].any (dbrFails dqFail3)
          then RunOutcome.err (aggErrMsg 20) else RunOutcome.ok) := by
  have h := deleteQueue_failure_handling
  have hb := h.2 20 ["0000000000000003"] dqFail3 (by decide)
  exact ⟨(h.1 3 [rowA] dqFail3 ⟨ErrCode.internal, "disk"⟩ rfl rfl).1,
    hb.1, hb.2.1, hb.2.2⟩

/-- Claim C7: DeleteReplication of an id with no catalog row returns the
not-found error, touching neither catalog nor queues, while
DeleteBucketReplications whose DELETE matched zero rows returns success
and touches no queue. -/
theorem delete_not_found_vs_bucket_empty (i : ID) (cat : List CatRow)
    (dq : ID → Option SErr) (b : ID)
    (h : cat.find? (fun x => x.id == i) = none) :
    ((deleteReplication i cat dq).res = Except.error errReplicationNotFound ∧
      (deleteReplication i cat dq).deleteQueueCalls = [] ∧
      (deleteReplication i cat dq).catalog = cat) ∧
    ((deleteBucketReplications b [] dq).outcome = RunOutcome.ok ∧
      (deleteBucketReplications b [] dq).deleteQueueCalls = []) := by
  constructor
  · simp [deleteReplication, h]
  · simp [deleteBucketReplications, dbrLoop]

/-- Concrete run of the C7 theorem: deleting id 5 from an empty catalog is
not-found; the bucket-wide delete with zero matches succeeds. -/
theorem delete_not_found_vs_bucket_empty_wit :
    (((deleteReplication 5 [] dqOk).res = Except.error errReplicationNotFound ∧
      (deleteReplication 5 [] dqOk).deleteQueueCalls = [] ∧
      (deleteReplication 5 [] dqOk).catalog = []) ∧
    ((deleteBucketReplications 2 [] dqOk).outcome = RunOutcome.ok ∧
      (deleteBucketReplications 2 [] dqOk).deleteQueueCalls = [])) :=
  delete_not_found_vs_bucket_empty 5 [] dqOk 2 rfl

/-- Claim C9 counterexample: the counters the source constructs are fully
qualified as replications_what_is_this_for_points_queued and
replications_what_is_this_for_bytes_queued — not the names the claim
states — and PrometheusCollectors exposes only the points counter, so the
bytes counter is never handed to the registry for registration. -/
theorem replicationsMetrics_claim_cex :
    newReplicationsMetrics.pointsQueued.fqName ≠ "replications_queue_points_queued_total" ∧
    newReplicationsMetrics.bytesQueued.fqName ≠ "replications_queue_bytes_queued_total" ∧
    newReplicationsMetrics.prometheusCollectors = [newReplicationsMetrics.pointsQueued] ∧
    newReplicationsMetrics.bytesQueued ∉ newReplicationsMetrics.prometheusCollectors := by
  exact ⟨by decide, by decide, rfl, by decide⟩

/-- Claim C9 amended: the service constructs exactly two counters labeled
by replicationID, once at service construction, fully qualified as
replications_what_is_this_for_points_queued and
replications_what_is_this_for_bytes_queued, and its PrometheusCollectors
method exposes only the points counter. -/
theorem replicationsMetrics_actual :
    newServiceMetrics = newReplicationsMetrics ∧
    newReplicationsMetrics.pointsQueued.fqName
      = "replications_what_is_this_for_points_queued" ∧
    newReplicationsMetrics.bytesQueued.fqName
      = "replications_what_is_this_for_bytes_queued" ∧
    newReplicationsMetrics.pointsQueued.labelNames = ["replicationID"] ∧
    newReplicationsMetrics.bytesQueued.labelNames = ["replicationID"] ∧
    newReplicationsMetrics.prometheusCollectors = [newReplicationsMetrics.pointsQueued] := by
  exact ⟨rfl, by decide, by decide, rfl, rfl, rfl⟩

/-- Claim C10 (code bug): when the catalog DELETE returns an id string
that does not parse — here "oops" — the loop logs the parse failure but
then still dereferences the nil id pointer in DeleteQueue(*id): the run
aborts with a nil-pointer panic instead of completing, and no DeleteQueue
call is made. -/
theorem deleteBucketReplications_nil_deref :
    (deleteBucketReplications 9 ["oops"] dqOk).outcome = RunOutcome.nilPanic ∧
    (deleteBucketReplications 9 ["oops"] dqOk).deleteQueueCalls = [] :=
  ⟨rfl, rfl⟩

end Replications
